import Mathlib

/-!
# go-nexus-client: the repository CRUD operations of `repository.go`

A shallow embedding of `src/repository.go`: the `Repository` data
transfer object with its JSON field tags, and the four operations
`RepositoryCreate`, `RepositoryRead`, `RepositoryUpdate`, `RepositoryDelete`
that call an injected transport and map the HTTP status to an outcome.

Conventions of the embedding.

* Go `string` and `[]byte` are `String`, a text of Unicode characters;
  `string(body)` is the identity.
* Go `int` is `Int` (no arithmetic is done on it; `%d` prints it in decimal).
* A Go pointer `*T` is `Option T`, `nil` being `none`.
* A Go `error` result is `Option GoError`, `nil` being `none`.
* Dereferencing a nil `*http.Response` is the outcome `Outcome.panicked`.
* The transport (`client` with `Get`, `Post`, `Put`, `Delete`), the helper
  `jsonMarshalInterfaceToIOReader`, `json.Unmarshal` and the five format
  specific struct types are not defined in `repository.go`; they are
  parameters of the embedding.
* Every transport call an operation makes is recorded in `Run.calls`.
* The serializer the operations are run with in the worked instance, and in
  the statement about the requests made, is `json.Marshal` by the struct
  tags, which encodes every `Repository`.
* A JSON document is a syntax tree (`JSON`); the text form of a document
  belongs to `encoding/json` and is not modelled.
-/

namespace Nexus

/-! ## Errors and `fmt` -/

/-- A Go `error` value: either made by a collaborator of this file (the
transport, the serializer, `encoding/json`) or made here by `fmt.Errorf`. -/
inductive GoError
  | collaborator (text : String)
  | errorf (text : String)
  deriving DecidableEq, Repr

/-- The method `Error()` of an error value. -/
def GoError.Error : GoError → String
  | .collaborator t => t
  | .errorf t => t

/-- An operand of `fmt.Sprintf` / `fmt.Errorf`, of one of the three kinds
that `repository.go` passes. -/
inductive Arg
  | str (s : String)
  | int (n : Int)
  | err (e : GoError)

/-- The text one operand contributes under the verb `verb`. The verbs used
in `repository.go` are `%s` (strings), `%d` (ints) and `%v` (an error);
a string or int under a verb of the wrong kind is rendered as Go renders a
bad verb, `%!d(string=...)`; an error operand prints its `Error()` text. -/
def formatArg (verb : Char) : Arg → List Char
  | .str s =>
    if verb = 's' ∨ verb = 'v' then s.data
    else ("%!" ++ verb.toString ++ "(string=" ++ s ++ ")").data
  | .int n =>
    if verb = 'd' ∨ verb = 'v' then (toString n).data
    else ("%!" ++ verb.toString ++ "(int=" ++ toString n ++ ")").data
  | .err e => e.Error.data

/-- The scan of a format string: text is copied, `%%` is a percent sign,
any other `%c` consumes the next operand (`%!c(MISSING)` when none is
left). Flags, widths and surplus operands do not occur in `repository.go`
and are not modelled. -/
def sprintfCore : List Char → List Arg → List Char
  | [], _ => []
  | c :: rest, args =>
    if c = '%' then
      match rest, args with
      | [], _ => "%!(NOVERB)".data
      | v :: rest2, args =>
        if v = '%' then '%' :: sprintfCore rest2 args
        else match args with
          | [] => ("%!" ++ v.toString ++ "(MISSING)").data ++ sprintfCore rest2 []
          | a :: as => formatArg v a ++ sprintfCore rest2 as
    else c :: sprintfCore rest args

/-- Go: `fmt.Sprintf(format, args...)`. -/
def Sprintf (format : String) (args : List Arg) : String :=
  ⟨sprintfCore format.data args⟩

/-- Go: `fmt.Errorf(format, args...)`. -/
def Errorf (format : String) (args : List Arg) : GoError :=
  .errorf (Sprintf format args)

/-! ## Constants -/

/-- Source: `repositoryAPIEndpoint`, line 10. -/
def repositoryAPIEndpoint : String := "service/rest/beta/repositories"

/-- Go: `http.StatusOK`. -/
def http.StatusOK : Int := 200

/-- Go: `http.StatusCreated`. -/
def http.StatusCreated : Int := 201

/-- Go: `http.StatusNoContent`. -/
def http.StatusNoContent : Int := 204

/-! ## JSON documents -/

/-- A JSON document as a syntax tree. Numbers are integer literals, the
only kind the structs of `repository.go` hold; an object keeps its members
in order. -/
inductive JSON
  | null
  | bool (b : Bool)
  | number (n : Int)
  | string (s : String)
  | array (items : List JSON)
  | object (members : List (String × JSON))

/-! ## Data model (source lines 13-95) -/

/-- The five struct types embedded in `Repository` whose declarations are
not in `repository.go`. -/
structure FormatTypes where
  RepositoryApt : Type
  RepositoryAptSigning : Type
  RepositoryBower : Type
  RepositoryDocker : Type
  RepositoryDockerProxy : Type

/-- Source: `RepositoryCleanup`. `PolicyNames` is a slice: `none` is the
nil slice. -/
structure RepositoryCleanup where
  PolicyNames : Option (List String)
  deriving DecidableEq, Repr

/-- Source: `RepositoryStorage`. -/
structure RepositoryStorage where
  BlobStoreName : String
  StrictContentTypeValidation : Bool
  WritePolicy : String
  deriving DecidableEq, Repr

/-- Source: `RepositoryProxy`. -/
structure RepositoryProxy where
  ContentMaxAge : Int
  MetadataMaxAge : Int
  RemoteURL : String
  deriving DecidableEq, Repr

/-- Source: `RepositoryNegativeCache`. -/
structure RepositoryNegativeCache where
  Enabled : Bool
  TTL : Int
  deriving DecidableEq, Repr

/-- Source: `RepositoryHTTPClientConnection`. -/
structure RepositoryHTTPClientConnection where
  EnableCircularRedirects : Bool
  EnableCookies : Bool
  Retries : Int
  Timeout : Int
  UserAgentSuffic : String
  deriving DecidableEq, Repr

/-- Source: `RepositoryHTTPClientAuthentication`. -/
structure RepositoryHTTPClientAuthentication where
  NTLMDomain : String
  NTLMHost : String
  Type_ : String
  Username : String
  deriving DecidableEq, Repr

/-- Source: `RepositoryHTTPClient`. -/
structure RepositoryHTTPClient where
  Authentication : RepositoryHTTPClientAuthentication
  AutoBlock : Bool
  Blocked : Bool
  Connection : RepositoryHTTPClientConnection
  deriving DecidableEq, Repr

/-- Source: `Repository`, lines 14-45. Each embedded pointer is a field
named after its type; `Type_` is the Go field `Type`. -/
structure Repository (T : FormatTypes) where
  Format : String
  Name : String
  Online : Bool
  Type_ : String
  RepositoryApt : Option T.RepositoryApt
  RepositoryAptSigning : Option T.RepositoryAptSigning
  RepositoryCleanup : Option RepositoryCleanup
  RepositoryBower : Option T.RepositoryBower
  RepositoryDocker : Option T.RepositoryDocker
  RepositoryDockerProxy : Option T.RepositoryDockerProxy
  RepositoryHTTPClient : Option RepositoryHTTPClient
  RepositoryNegativeCache : Option RepositoryNegativeCache
  RepositoryProxy : Option RepositoryProxy
  RepositoryStorage : Option RepositoryStorage

/-! ## The transport and the other collaborators -/

/-- Go: `*http.Response`, of which only `StatusCode` is read. -/
structure Response where
  StatusCode : Int
  deriving DecidableEq, Repr

/-- Go: an `io.Reader` handed to the transport: `none` is the nil reader,
`some d` a reader over the JSON document `d`. -/
abbrev Reader := Option JSON

/-- What a transport method returns: `(body []byte, resp *http.Response,
err error)`. -/
structure Reply where
  body : String
  resp : Option Response
  err : Option GoError

/-- The receiver `c client`: its four transport methods. -/
structure client where
  Get : String → Reader → Reply
  Post : String → Reader → Reply
  Put : String → Reader → Reply
  Delete : String → Reply

/-- The two functions the operations call besides the transport:
`jsonMarshalInterfaceToIOReader(repo)`, returning `(io.Reader, error)`,
and `json.Unmarshal(body, &repositories)` for `repositories []Repository`. -/
structure Collaborators (T : FormatTypes) where
  jsonMarshalInterfaceToIOReader : Repository T → Reader × Option GoError
  jsonUnmarshal : String → Except GoError (List (Repository T))

/-- One transport call, as the transport sees it. -/
inductive Call
  | Get (path : String) (payload : Reader)
  | Post (path : String) (payload : Reader)
  | Put (path : String) (payload : Reader)
  | Delete (path : String)

/-- How a call of an operation ends: it returns, or it panics on a nil
`resp`. -/
inductive Outcome (α : Type)
  | returned (value : α)
  | panicked

/-- An execution of an operation: the transport calls it made, in order,
and how it ended. -/
structure Run (α : Type) where
  calls : List Call
  result : Outcome α

/-! ## The operations (source lines 97-165) -/

/-- Source: `RepositoryCreate`, lines 97-112. -/
def RepositoryCreate {T : FormatTypes} (E : Collaborators T) (c : client)
    (repo : Repository T) (format : String) (repoType : String) : Run (Option GoError) :=
  match E.jsonMarshalInterfaceToIOReader repo with
  | (_, some err) => ⟨[], .returned (some err)⟩
  | (data, none) =>
    let path := Sprintf "%s/%s/%s" [.str repositoryAPIEndpoint, .str format, .str repoType]
    match c.Post path data with
    | ⟨_, _, some err⟩ => ⟨[Call.Post path data], .returned (some err)⟩
    | ⟨_, none, none⟩ => ⟨[Call.Post path data], .panicked⟩
    | ⟨body, some resp, none⟩ =>
      if resp.StatusCode ≠ http.StatusOK ∧ resp.StatusCode ≠ http.StatusCreated then
        ⟨[Call.Post path data], .returned (some (Errorf
          "could not create repository '%s': HTTP: %d, %s"
          [.str repo.Name, .int resp.StatusCode, .str body]))⟩
      else ⟨[Call.Post path data], .returned none⟩

/-- The loop of `RepositoryRead`, lines 129-135: the first element whose
`Name` is `id`, or nil. -/
def scanRepositories {T : FormatTypes} (id : String) :
    List (Repository T) → Option (Repository T)
  | [] => none
  | repo :: rest => if repo.Name = id then some repo else scanRepositories id rest

/-- Source: `RepositoryRead`, lines 114-136. -/
def RepositoryRead {T : FormatTypes} (E : Collaborators T) (c : client)
    (id : String) : Run (Option (Repository T) × Option GoError) :=
  let path := Sprintf "%s" [.str repositoryAPIEndpoint]
  match c.Get path none with
  | ⟨_, _, some err⟩ => ⟨[Call.Get path none], .returned (none, some err)⟩
  | ⟨_, none, none⟩ => ⟨[Call.Get path none], .panicked⟩
  | ⟨body, some resp, none⟩ =>
    if resp.StatusCode ≠ http.StatusOK then
      ⟨[Call.Get path none], .returned (none, some (Errorf
        "could not read repository '%s': HTTP: %d, %s"
        [.str id, .int resp.StatusCode, .str body]))⟩
    else
      match E.jsonUnmarshal body with
      | .error err => ⟨[Call.Get path none], .returned (none, some (Errorf
          "could not unmarshal repositories: %v" [.err err]))⟩
      | .ok repositories =>
        ⟨[Call.Get path none], .returned (scanRepositories id repositories, none)⟩

/-- Source: `RepositoryUpdate`, lines 138-154. -/
def RepositoryUpdate {T : FormatTypes} (E : Collaborators T) (c : client)
    (id : String) (repo : Repository T) (format : String) (repoType : String) :
    Run (Option GoError) :=
  match E.jsonMarshalInterfaceToIOReader repo with
  | (_, some err) => ⟨[], .returned (some err)⟩
  | (data, none) =>
    let path := Sprintf "%s/%s/%s/%s"
      [.str repositoryAPIEndpoint, .str format, .str repoType, .str id]
    match c.Put path data with
    | ⟨_, _, some err⟩ => ⟨[Call.Put path data], .returned (some err)⟩
    | ⟨_, none, none⟩ => ⟨[Call.Put path data], .panicked⟩
    | ⟨body, some resp, none⟩ =>
      if resp.StatusCode ≠ http.StatusOK ∧ resp.StatusCode ≠ http.StatusNoContent then
        ⟨[Call.Put path data], .returned (some (Errorf
          "could not update repository '%s': HTTP: %d, %s"
          [.str id, .int resp.StatusCode, .str body]))⟩
      else ⟨[Call.Put path data], .returned none⟩

/-- Source: `RepositoryDelete`, lines 156-165. -/
def RepositoryDelete (c : client) (id : String) : Run (Option GoError) :=
  let path := Sprintf "%s/%s" [.str repositoryAPIEndpoint, .str id]
  match c.Delete path with
  | ⟨_, _, some err⟩ => ⟨[Call.Delete path], .returned (some err)⟩
  | ⟨_, none, none⟩ => ⟨[Call.Delete path], .panicked⟩
  | ⟨body, some resp, none⟩ =>
    if resp.StatusCode ≠ http.StatusOK ∧ resp.StatusCode ≠ http.StatusNoContent then
      ⟨[Call.Delete path], .returned (some (Errorf
        "could not delete repository '%s': HTTP: %d, %s"
        [.str id, .int resp.StatusCode, .str body]))⟩
    else ⟨[Call.Delete path], .returned none⟩

/-! ## `encoding/json` on these structs

`json.Marshal` and `json.Unmarshal` as they act on the struct types above,
at the level of JSON documents: which member each field becomes under its
tag (key, `omitempty`), and which field each member of an object sets.
The members of an object are decoded in order, each into the field whose
tag is its key. Keys are compared exactly: `encoding/json` also takes a key
that differs from a tag only in letter case, and no document written by
`marshal` has such a key. -/

/-- The error `json.Unmarshal` gives for a JSON value that does not fit
the Go type it is decoded into. -/
def unmarshalTypeError (goType : String) : GoError :=
  .collaborator ("json: cannot unmarshal value into Go value of type " ++ goType)

/-- The values of Go's 64-bit `int`. -/
def isGoInt (n : Int) : Prop := -9223372036854775808 ≤ n ∧ n ≤ 9223372036854775807

instance (n : Int) : Decidable (isGoInt n) := by
  unfold isGoInt; exact inferInstance

/-- Decoding into a `string` field holding `cur`: `null` leaves it. -/
def decodeString (cur : String) : JSON → Except GoError String
  | .null => .ok cur
  | .string s => .ok s
  | _ => .error (unmarshalTypeError "string")

/-- Decoding into a `bool` field holding `cur`: `null` leaves it. -/
def decodeBool (cur : Bool) : JSON → Except GoError Bool
  | .null => .ok cur
  | .bool b => .ok b
  | _ => .error (unmarshalTypeError "bool")

/-- Decoding into an `int` field holding `cur`: `null` leaves it, a number
outside the range of `int` is an error. -/
def decodeInt (cur : Int) : JSON → Except GoError Int
  | .null => .ok cur
  | .number n => if isGoInt n then .ok n else .error (unmarshalTypeError "int")
  | _ => .error (unmarshalTypeError "int")

/-- Decoding the items of an array into the elements of a `[]string` whose
present elements are `cur`: item `i` is decoded into element `i`, a new
empty string when the slice is shorter. -/
def decodeStrings : List String → List JSON → Except GoError (List String)
  | _, [] => .ok []
  | cur, v :: rest =>
    match decodeString (cur.headD "") v with
    | .error e => .error e
    | .ok s =>
      match decodeStrings cur.tail rest with
      | .error e => .error e
      | .ok ss => .ok (s :: ss)

/-- Decoding into a `[]string` field holding `cur`: `null` makes it nil, an
array sets its elements and its length. -/
def decodeStringSlice (cur : Option (List String)) : JSON → Except GoError (Option (List String))
  | .null => .ok none
  | .array items =>
    match decodeStrings (cur.getD []) items with
    | .error e => .error e
    | .ok ss => .ok (some ss)
  | _ => .error (unmarshalTypeError "[]string")

/-- Decoding the members of an object, in order, into a struct: each member
is handed to the struct's `setField`. -/
def decodeMembers {S : Type} (setField : S → String → JSON → Except GoError S) :
    S → List (String × JSON) → Except GoError S
  | s, [] => .ok s
  | s, (key, v) :: rest =>
    match setField s key v with
    | .error e => .error e
    | .ok s2 => decodeMembers setField s2 rest

/-- Decoding into a struct-valued field holding `cur`: `null` leaves it,
an object sets its fields. -/
def decodeStruct {S : Type} (setField : S → String → JSON → Except GoError S)
    (goType : String) (cur : S) : JSON → Except GoError S
  | .null => .ok cur
  | .object members => decodeMembers setField cur members
  | _ => .error (unmarshalTypeError goType)

/-- Decoding into a pointer-to-struct field holding `cur`: `null` makes it
nil, an object sets the fields of the struct pointed to (a new zero struct
when the pointer was nil). -/
def decodePointer {S : Type} (setField : S → String → JSON → Except GoError S)
    (goType : String) (zero : S) (cur : Option S) : JSON → Except GoError (Option S)
  | .null => .ok none
  | .object members =>
    match decodeMembers setField (cur.getD zero) members with
    | .error e => .error e
    | .ok s => .ok (some s)
  | _ => .error (unmarshalTypeError goType)

/-- The member of a `string` field tagged `omitempty`: none when empty. -/
def omitEmptyString (key : String) (s : String) : List (String × JSON) :=
  if s = "" then [] else [(key, .string s)]

/-- The member of a pointer field tagged `omitempty`: none when nil. -/
def omitEmptyPointer {S : Type} (key : String) (marshal : S → JSON) :
    Option S → List (String × JSON)
  | none => []
  | some x => [(key, marshal x)]

/-- The value of a pointer field without `omitempty`: `null` when nil. -/
def marshalPointer {S : Type} (marshal : S → JSON) : Option S → JSON
  | none => .null
  | some x => marshal x

/-- The JSON behaviour of one of the struct types missing from
`repository.go`: the members it marshals to, its zero value, and how a
member sets a field. -/
structure FormatCodec (S : Type) where
  members : S → List (String × JSON)
  zero : S
  setField : S → String → JSON → Except GoError S

/-- A codec reads back what it writes. -/
def FormatCodec.RoundTrips {S : Type} (k : FormatCodec S) : Prop :=
  ∀ x : S, decodeMembers k.setField k.zero (k.members x) = .ok x

/-- The JSON behaviour of the five missing struct types. -/
structure FormatCodecs (T : FormatTypes) where
  Apt : FormatCodec T.RepositoryApt
  AptSigning : FormatCodec T.RepositoryAptSigning
  Bower : FormatCodec T.RepositoryBower
  Docker : FormatCodec T.RepositoryDocker
  DockerProxy : FormatCodec T.RepositoryDockerProxy

/-- Tags of `RepositoryCleanup`: `policyNames`. -/
def RepositoryCleanup.marshal (s : RepositoryCleanup) : JSON :=
  .object [("policyNames",
    match s.PolicyNames with
    | none => .null
    | some names => .array (names.map JSON.string))]

/-- Zero value of `RepositoryCleanup`. -/
def RepositoryCleanup.zero : RepositoryCleanup := ⟨none⟩

/-- Members that set a field of `RepositoryCleanup`. -/
def RepositoryCleanup.setField (s : RepositoryCleanup) (key : String) (v : JSON) :
    Except GoError RepositoryCleanup :=
  if key = "policyNames" then
    match decodeStringSlice s.PolicyNames v with
    | .error e => .error e
    | .ok x => .ok { s with PolicyNames := x }
  else .ok s

/-- Tags of `RepositoryStorage`. -/
def RepositoryStorage.marshal (s : RepositoryStorage) : JSON :=
  .object [("blobStoreName", .string s.BlobStoreName),
    ("strictContentTypeValidation", .bool s.StrictContentTypeValidation),
    ("writePolicy", .string s.WritePolicy)]

/-- Zero value of `RepositoryStorage`. -/
def RepositoryStorage.zero : RepositoryStorage := ⟨"", false, ""⟩

/-- Members that set a field of `RepositoryStorage`. -/
def RepositoryStorage.setField (s : RepositoryStorage) (key : String) (v : JSON) :
    Except GoError RepositoryStorage :=
  if key = "blobStoreName" then
    match decodeString s.BlobStoreName v with
    | .error e => .error e
    | .ok x => .ok { s with BlobStoreName := x }
  else if key = "strictContentTypeValidation" then
    match decodeBool s.StrictContentTypeValidation v with
    | .error e => .error e
    | .ok x => .ok { s with StrictContentTypeValidation := x }
  else if key = "writePolicy" then
    match decodeString s.WritePolicy v with
    | .error e => .error e
    | .ok x => .ok { s with WritePolicy := x }
  else .ok s

/-- Tags of `RepositoryProxy`. -/
def RepositoryProxy.marshal (s : RepositoryProxy) : JSON :=
  .object [("contentMaxAge", .number s.ContentMaxAge),
    ("metadataMaxAge", .number s.MetadataMaxAge),
    ("remoteUrl", .string s.RemoteURL)]

/-- Zero value of `RepositoryProxy`. -/
def RepositoryProxy.zero : RepositoryProxy := ⟨0, 0, ""⟩

/-- Members that set a field of `RepositoryProxy`. -/
def RepositoryProxy.setField (s : RepositoryProxy) (key : String) (v : JSON) :
    Except GoError RepositoryProxy :=
  if key = "contentMaxAge" then
    match decodeInt s.ContentMaxAge v with
    | .error e => .error e
    | .ok x => .ok { s with ContentMaxAge := x }
  else if key = "metadataMaxAge" then
    match decodeInt s.MetadataMaxAge v with
    | .error e => .error e
    | .ok x => .ok { s with MetadataMaxAge := x }
  else if key = "remoteUrl" then
    match decodeString s.RemoteURL v with
    | .error e => .error e
    | .ok x => .ok { s with RemoteURL := x }
  else .ok s

/-- Tags of `RepositoryNegativeCache`. -/
def RepositoryNegativeCache.marshal (s : RepositoryNegativeCache) : JSON :=
  .object [("enabled", .bool s.Enabled), ("timeToLive", .number s.TTL)]

/-- Zero value of `RepositoryNegativeCache`. -/
def RepositoryNegativeCache.zero : RepositoryNegativeCache := ⟨false, 0⟩

/-- Members that set a field of `RepositoryNegativeCache`. -/
def RepositoryNegativeCache.setField (s : RepositoryNegativeCache) (key : String)
    (v : JSON) : Except GoError RepositoryNegativeCache :=
  if key = "enabled" then
    match decodeBool s.Enabled v with
    | .error e => .error e
    | .ok x => .ok { s with Enabled := x }
  else if key = "timeToLive" then
    match decodeInt s.TTL v with
    | .error e => .error e
    | .ok x => .ok { s with TTL := x }
  else .ok s

/-- Tags of `RepositoryHTTPClientAuthentication`. -/
def RepositoryHTTPClientAuthentication.marshal (s : RepositoryHTTPClientAuthentication) :
    JSON :=
  .object [("ntlmDomain", .string s.NTLMDomain), ("ntlmHost", .string s.NTLMHost),
    ("type", .string s.Type_), ("username", .string s.Username)]

/-- Zero value of `RepositoryHTTPClientAuthentication`. -/
def RepositoryHTTPClientAuthentication.zero : RepositoryHTTPClientAuthentication :=
  ⟨"", "", "", ""⟩

/-- Members that set a field of `RepositoryHTTPClientAuthentication`. -/
def RepositoryHTTPClientAuthentication.setField (s : RepositoryHTTPClientAuthentication)
    (key : String) (v : JSON) : Except GoError RepositoryHTTPClientAuthentication :=
  if key = "ntlmDomain" then
    match decodeString s.NTLMDomain v with
    | .error e => .error e
    | .ok x => .ok { s with NTLMDomain := x }
  else if key = "ntlmHost" then
    match decodeString s.NTLMHost v with
    | .error e => .error e
    | .ok x => .ok { s with NTLMHost := x }
  else if key = "type" then
    match decodeString s.Type_ v with
    | .error e => .error e
    | .ok x => .ok { s with Type_ := x }
  else if key = "username" then
    match decodeString s.Username v with
    | .error e => .error e
    | .ok x => .ok { s with Username := x }
  else .ok s

/-- Tags of `RepositoryHTTPClientConnection`. -/
def RepositoryHTTPClientConnection.marshal (s : RepositoryHTTPClientConnection) : JSON :=
  .object [("enableCircularRedirects", .bool s.EnableCircularRedirects),
    ("enableCookies", .bool s.EnableCookies),
    ("retries", .number s.Retries),
    ("timeout", .number s.Timeout),
    ("userAgentSuffix", .string s.UserAgentSuffic)]

/-- Zero value of `RepositoryHTTPClientConnection`. -/
def RepositoryHTTPClientConnection.zero : RepositoryHTTPClientConnection :=
  ⟨false, false, 0, 0, ""⟩

/-- Members that set a field of `RepositoryHTTPClientConnection`. -/
def RepositoryHTTPClientConnection.setField (s : RepositoryHTTPClientConnection)
    (key : String) (v : JSON) : Except GoError RepositoryHTTPClientConnection :=
  if key = "enableCircularRedirects" then
    match decodeBool s.EnableCircularRedirects v with
    | .error e => .error e
    | .ok x => .ok { s with EnableCircularRedirects := x }
  else if key = "enableCookies" then
    match decodeBool s.EnableCookies v with
    | .error e => .error e
    | .ok x => .ok { s with EnableCookies := x }
  else if key = "retries" then
    match decodeInt s.Retries v with
    | .error e => .error e
    | .ok x => .ok { s with Retries := x }
  else if key = "timeout" then
    match decodeInt s.Timeout v with
    | .error e => .error e
    | .ok x => .ok { s with Timeout := x }
  else if key = "userAgentSuffix" then
    match decodeString s.UserAgentSuffic v with
    | .error e => .error e
    | .ok x => .ok { s with UserAgentSuffic := x }
  else .ok s

/-- Tags of `RepositoryHTTPClient`; its two struct fields are values, not
pointers. -/
def RepositoryHTTPClient.marshal (s : RepositoryHTTPClient) : JSON :=
  .object [("authentication", s.Authentication.marshal),
    ("autoBlock", .bool s.AutoBlock),
    ("blocked", .bool s.Blocked),
    ("connection", s.Connection.marshal)]

/-- Zero value of `RepositoryHTTPClient`. -/
def RepositoryHTTPClient.zero : RepositoryHTTPClient :=
  ⟨RepositoryHTTPClientAuthentication.zero, false, false,
    RepositoryHTTPClientConnection.zero⟩

/-- Members that set a field of `RepositoryHTTPClient`. -/
def RepositoryHTTPClient.setField (s : RepositoryHTTPClient) (key : String) (v : JSON) :
    Except GoError RepositoryHTTPClient :=
  if key = "authentication" then
    match decodeStruct RepositoryHTTPClientAuthentication.setField
      "RepositoryHTTPClientAuthentication" s.Authentication v with
    | .error e => .error e
    | .ok x => .ok { s with Authentication := x }
  else if key = "autoBlock" then
    match decodeBool s.AutoBlock v with
    | .error e => .error e
    | .ok x => .ok { s with AutoBlock := x }
  else if key = "blocked" then
    match decodeBool s.Blocked v with
    | .error e => .error e
    | .ok x => .ok { s with Blocked := x }
  else if key = "connection" then
    match decodeStruct RepositoryHTTPClientConnection.setField
      "RepositoryHTTPClientConnection" s.Connection v with
    | .error e => .error e
    | .ok x => .ok { s with Connection := x }
  else .ok s

/-- Source lines 14-45, `json.Marshal(repo)`: the members in field order,
under the tags `format,omitempty`, `name`, `online`, `type,omitempty`,
`apt,omitempty`, `aptSigning,omitempty`, `cleanup`, `bower`, `docker`,
`dockerProxy`, `httpClient`, `negativeCache`, `proxy`, `storage`. -/
def Repository.marshal {T : FormatTypes} (K : FormatCodecs T) (r : Repository T) : JSON :=
  .object (
    omitEmptyString "format" r.Format ++
    [("name", .string r.Name), ("online", .bool r.Online)] ++
    omitEmptyString "type" r.Type_ ++
    omitEmptyPointer "apt" (fun x => .object (K.Apt.members x)) r.RepositoryApt ++
    omitEmptyPointer "aptSigning" (fun x => .object (K.AptSigning.members x))
      r.RepositoryAptSigning ++
    [("cleanup", marshalPointer RepositoryCleanup.marshal r.RepositoryCleanup),
     ("bower", marshalPointer (fun x => .object (K.Bower.members x)) r.RepositoryBower),
     ("docker", marshalPointer (fun x => .object (K.Docker.members x)) r.RepositoryDocker),
     ("dockerProxy", marshalPointer (fun x => .object (K.DockerProxy.members x))
        r.RepositoryDockerProxy),
     ("httpClient", marshalPointer RepositoryHTTPClient.marshal r.RepositoryHTTPClient),
     ("negativeCache", marshalPointer RepositoryNegativeCache.marshal
        r.RepositoryNegativeCache),
     ("proxy", marshalPointer RepositoryProxy.marshal r.RepositoryProxy),
     ("storage", marshalPointer RepositoryStorage.marshal r.RepositoryStorage)])

/-- Zero value of `Repository`. -/
def Repository.zero {T : FormatTypes} : Repository T :=
  ⟨"", "", false, "", none, none, none, none, none, none, none, none, none, none⟩

/-- Members that set a field of `Repository`; a member under any other key
is skipped. -/
def Repository.setField {T : FormatTypes} (K : FormatCodecs T) (r : Repository T)
    (key : String) (v : JSON) : Except GoError (Repository T) :=
  if key = "format" then
    match decodeString r.Format v with
    | .error e => .error e
    | .ok x => .ok { r with Format := x }
  else if key = "name" then
    match decodeString r.Name v with
    | .error e => .error e
    | .ok x => .ok { r with Name := x }
  else if key = "online" then
    match decodeBool r.Online v with
    | .error e => .error e
    | .ok x => .ok { r with Online := x }
  else if key = "type" then
    match decodeString r.Type_ v with
    | .error e => .error e
    | .ok x => .ok { r with Type_ := x }
  else if key = "apt" then
    match decodePointer K.Apt.setField "RepositoryApt" K.Apt.zero r.RepositoryApt v with
    | .error e => .error e
    | .ok x => .ok { r with RepositoryApt := x }
  else if key = "aptSigning" then
    match decodePointer K.AptSigning.setField "RepositoryAptSigning" K.AptSigning.zero
      r.RepositoryAptSigning v with
    | .error e => .error e
    | .ok x => .ok { r with RepositoryAptSigning := x }
  else if key = "cleanup" then
    match decodePointer RepositoryCleanup.setField "RepositoryCleanup"
      RepositoryCleanup.zero r.RepositoryCleanup v with
    | .error e => .error e
    | .ok x => .ok { r with RepositoryCleanup := x }
  else if key = "bower" then
    match decodePointer K.Bower.setField "RepositoryBower" K.Bower.zero
      r.RepositoryBower v with
    | .error e => .error e
    | .ok x => .ok { r with RepositoryBower := x }
  else if key = "docker" then
    match decodePointer K.Docker.setField "RepositoryDocker" K.Docker.zero
      r.RepositoryDocker v with
    | .error e => .error e
    | .ok x => .ok { r with RepositoryDocker := x }
  else if key = "dockerProxy" then
    match decodePointer K.DockerProxy.setField "RepositoryDockerProxy" K.DockerProxy.zero
      r.RepositoryDockerProxy v with
    | .error e => .error e
    | .ok x => .ok { r with RepositoryDockerProxy := x }
  else if key = "httpClient" then
    match decodePointer RepositoryHTTPClient.setField "RepositoryHTTPClient"
      RepositoryHTTPClient.zero r.RepositoryHTTPClient v with
    | .error e => .error e
    | .ok x => .ok { r with RepositoryHTTPClient := x }
  else if key = "negativeCache" then
    match decodePointer RepositoryNegativeCache.setField "RepositoryNegativeCache"
      RepositoryNegativeCache.zero r.RepositoryNegativeCache v with
    | .error e => .error e
    | .ok x => .ok { r with RepositoryNegativeCache := x }
  else if key = "proxy" then
    match decodePointer RepositoryProxy.setField "RepositoryProxy"
      RepositoryProxy.zero r.RepositoryProxy v with
    | .error e => .error e
    | .ok x => .ok { r with RepositoryProxy := x }
  else if key = "storage" then
    match decodePointer RepositoryStorage.setField "RepositoryStorage"
      RepositoryStorage.zero r.RepositoryStorage v with
    | .error e => .error e
    | .ok x => .ok { r with RepositoryStorage := x }
  else .ok r

/-- Go: `var r Repository; json.Unmarshal(doc, &r)`: decoding a document
into a zero `Repository`. -/
def Repository.unmarshal {T : FormatTypes} (K : FormatCodecs T) (doc : JSON) :
    Except GoError (Repository T) :=
  decodeStruct (Repository.setField K) "Repository" Repository.zero doc

/-- The `int` fields of a `Repository` hold values of Go's `int`. -/
def Repository.IntsInRange {T : FormatTypes} (r : Repository T) : Prop :=
  (∀ p, r.RepositoryProxy = some p → isGoInt p.ContentMaxAge ∧ isGoInt p.MetadataMaxAge) ∧
  (∀ n, r.RepositoryNegativeCache = some n → isGoInt n.TTL) ∧
  (∀ h, r.RepositoryHTTPClient = some h →
    isGoInt h.Connection.Retries ∧ isGoInt h.Connection.Timeout)

/-- Modelled from the spec: `jsonMarshalInterfaceToIOReader`, called at
lines 98 and 139 and not defined in `repository.go`. The specification says
that Create and Update serialize `repo` to JSON: the helper is
`json.Marshal` by the struct tags, and a reader over the document. Every
`Repository` is encoded (its fields are strings, bools, ints and pointers
to structs of these), so the error is nil. -/
def jsonMarshalInterfaceToIOReader {T : FormatTypes} (K : FormatCodecs T)
    (repo : Repository T) : Reader × Option GoError :=
  (some (repo.marshal K), none)

/-- The collaborators with the modelled serializer and a given
`json.Unmarshal`. -/
def marshalingCollaborators {T : FormatTypes} (K : FormatCodecs T)
    (jsonUnmarshal : String → Except GoError (List (Repository T))) : Collaborators T :=
  ⟨jsonMarshalInterfaceToIOReader K, jsonUnmarshal⟩

/-- The keys of the members of a document that is an object. -/
def JSON.keys : JSON → List String
  | .object members => members.map Prod.fst
  | _ => []

/-! ## Sub-configuration presence -/

/-- All eight optional sub-configurations `Cleanup`, `Bower`, `Docker`,
`DockerProxy`, `HTTPClient`, `NegativeCache`, `Proxy`, `Storage` are
present. -/
def Repository.allPresent {T : FormatTypes} (r : Repository T) : Prop :=
  r.RepositoryCleanup.isSome = true ∧ r.RepositoryBower.isSome = true ∧
  r.RepositoryDocker.isSome = true ∧ r.RepositoryDockerProxy.isSome = true ∧
  r.RepositoryHTTPClient.isSome = true ∧ r.RepositoryNegativeCache.isSome = true ∧
  r.RepositoryProxy.isSome = true ∧ r.RepositoryStorage.isSome = true

/-- All eight optional sub-configurations are absent. -/
def Repository.allAbsent {T : FormatTypes} (r : Repository T) : Prop :=
  r.RepositoryCleanup.isSome = false ∧ r.RepositoryBower.isSome = false ∧
  r.RepositoryDocker.isSome = false ∧ r.RepositoryDockerProxy.isSome = false ∧
  r.RepositoryHTTPClient.isSome = false ∧ r.RepositoryNegativeCache.isSome = false ∧
  r.RepositoryProxy.isSome = false ∧ r.RepositoryStorage.isSome = false

/-! ## A worked instance

The end-to-end scenario of the specification: the hosted `maven2`
repository `releases`, a listing with an entry `my-repo`, and transports
that give one fixed reply. The format specific structs carry no data here,
only their presence. -/

/-- Format specific structs without fields. -/
@[reducible] def presenceOnly : FormatTypes := ⟨Unit, Unit, Unit, Unit, Unit⟩

/-- A struct without fields marshals to the empty object and no member
sets anything in it. -/
def presenceOnlyCodec : FormatCodec Unit := ⟨fun _ => [], (), fun s _ _ => .ok s⟩

/-- The codecs of `presenceOnly`. -/
def presenceOnlyCodecs : FormatCodecs presenceOnly :=
  ⟨presenceOnlyCodec, presenceOnlyCodec, presenceOnlyCodec, presenceOnlyCodec,
    presenceOnlyCodec⟩

/-- The repository of the end-to-end scenario: only `Storage` is present. -/
def releases : Repository presenceOnly :=
  { Format := "maven2", Name := "releases", Online := true, Type_ := "hosted",
    RepositoryApt := none, RepositoryAptSigning := none, RepositoryCleanup := none,
    RepositoryBower := none, RepositoryDocker := none, RepositoryDockerProxy := none,
    RepositoryHTTPClient := none, RepositoryNegativeCache := none, RepositoryProxy := none,
    RepositoryStorage := some ⟨"default", true, "allow_once"⟩ }

/-- A proxy repository named `my-repo` with every known sub-configuration
present, and empty `Format` and `Type`. -/
def myRepo : Repository presenceOnly :=
  { Format := "", Name := "my-repo", Online := true, Type_ := "",
    RepositoryApt := none, RepositoryAptSigning := some (),
    RepositoryCleanup := some ⟨some ["weekly", "daily"]⟩,
    RepositoryBower := none, RepositoryDocker := some (), RepositoryDockerProxy := none,
    RepositoryHTTPClient := some ⟨⟨"corp", "host1", "ntlm", "svc"⟩, true, false,
      ⟨false, true, 3, 60, "nexus"⟩⟩,
    RepositoryNegativeCache := some ⟨true, 1440⟩,
    RepositoryProxy := some ⟨-1, 1440, "https://repo1.maven.org/maven2/"⟩,
    RepositoryStorage := some ⟨"default", false, "allow"⟩ }

/-- A listing entry that has only a name and the online flag. -/
def entry (name : String) (online : Bool) : Repository presenceOnly :=
  { Format := "", Name := name, Online := online, Type_ := "",
    RepositoryApt := none, RepositoryAptSigning := none, RepositoryCleanup := none,
    RepositoryBower := none, RepositoryDocker := none, RepositoryDockerProxy := none,
    RepositoryHTTPClient := none, RepositoryNegativeCache := none, RepositoryProxy := none,
    RepositoryStorage := none }

/-- The body of a listing with three entries, the last two both named
`my-repo`. -/
def listingBody : String :=
  "[\x7b\"name\":\"releases\",\"online\":true\x7d," ++
  "\x7b\"name\":\"my-repo\",\"online\":true\x7d," ++
  "\x7b\"name\":\"my-repo\",\"online\":false\x7d]"

/-- Collaborators of the worked instance: the serializer is the modelled
`jsonMarshalInterfaceToIOReader`; `json.Unmarshal` is given on two bodies,
the empty listing `[]` and `listingBody`, and rejects every other body. -/
def exampleCollaborators : Collaborators presenceOnly :=
  marshalingCollaborators presenceOnlyCodecs (fun body =>
    if body = "[]" then .ok []
    else if body = listingBody then
      .ok [entry "releases" true, entry "my-repo" true, entry "my-repo" false]
    else .error (.collaborator "unexpected end of JSON input"))

/-- A transport that answers every call with `reply`. -/
def replyingClient (reply : Reply) : client :=
  ⟨fun _ _ => reply, fun _ _ => reply, fun _ _ => reply, fun _ => reply⟩

/-! ## What `Sprintf` yields on the formats of `repository.go` -/

theorem createPath_eq (format repoType : String) :
    Sprintf "%s/%s/%s" [.str repositoryAPIEndpoint, .str format, .str repoType] =
      "service/rest/beta/repositories/" ++ format ++ "/" ++ repoType := by
  apply String.ext
  simp [Sprintf, sprintfCore, formatArg, repositoryAPIEndpoint]

theorem readPath_eq :
    Sprintf "%s" [.str repositoryAPIEndpoint] = "service/rest/beta/repositories" := by
  decide

theorem updatePath_eq (format repoType id : String) :
    Sprintf "%s/%s/%s/%s"
      [.str repositoryAPIEndpoint, .str format, .str repoType, .str id] =
      "service/rest/beta/repositories/" ++ format ++ "/" ++ repoType ++ "/" ++ id := by
  apply String.ext
  simp [Sprintf, sprintfCore, formatArg, repositoryAPIEndpoint]

theorem deletePath_eq (id : String) :
    Sprintf "%s/%s" [.str repositoryAPIEndpoint, .str id] =
      "service/rest/beta/repositories/" ++ id := by
  apply String.ext
  simp [Sprintf, sprintfCore, formatArg, repositoryAPIEndpoint]

theorem createError_eq (name : String) (s : Int) (b : String) :
    Errorf "could not create repository '%s': HTTP: %d, %s" [.str name, .int s, .str b] =
      .errorf ("could not create repository '" ++ name ++ "': HTTP: " ++ toString s ++
        ", " ++ b) := by
  unfold Errorf
  congr 1
  apply String.ext
  simp [Sprintf, sprintfCore, formatArg]

theorem readError_eq (id : String) (s : Int) (b : String) :
    Errorf "could not read repository '%s': HTTP: %d, %s" [.str id, .int s, .str b] =
      .errorf ("could not read repository '" ++ id ++ "': HTTP: " ++ toString s ++
        ", " ++ b) := by
  unfold Errorf
  congr 1
  apply String.ext
  simp [Sprintf, sprintfCore, formatArg]

theorem unmarshalError_eq (e : GoError) :
    Errorf "could not unmarshal repositories: %v" [.err e] =
      .errorf ("could not unmarshal repositories: " ++ e.Error) := by
  unfold Errorf
  congr 1
  apply String.ext
  simp [Sprintf, sprintfCore, formatArg]

theorem updateError_eq (id : String) (s : Int) (b : String) :
    Errorf "could not update repository '%s': HTTP: %d, %s" [.str id, .int s, .str b] =
      .errorf ("could not update repository '" ++ id ++ "': HTTP: " ++ toString s ++
        ", " ++ b) := by
  unfold Errorf
  congr 1
  apply String.ext
  simp [Sprintf, sprintfCore, formatArg]

theorem deleteError_eq (id : String) (s : Int) (b : String) :
    Errorf "could not delete repository '%s': HTTP: %d, %s" [.str id, .int s, .str b] =
      .errorf ("could not delete repository '" ++ id ++ "': HTTP: " ++ toString s ++
        ", " ++ b) := by
  unfold Errorf
  congr 1
  apply String.ext
  simp [Sprintf, sprintfCore, formatArg]

theorem readError_ne_unmarshalError (x y : String) :
    "could not read repository '" ++ x ≠ "could not unmarshal repositories: " ++ y := by
  intro h
  have h2 := congrArg String.data h
  simp at h2

theorem RepositoryCreate_eval {T : FormatTypes} (E : Collaborators T) (c : client)
    (repo : Repository T) (format repoType : String) (data : Reader) (b : String)
    (resp : Option Response) (err : Option GoError)
    (hser : E.jsonMarshalInterfaceToIOReader repo = (data, none))
    (hpost : c.Post ("service/rest/beta/repositories/" ++ format ++ "/" ++ repoType) data =
      ⟨b, resp, err⟩) :
    RepositoryCreate E c repo format repoType =
      ⟨[Call.Post ("service/rest/beta/repositories/" ++ format ++ "/" ++ repoType) data],
        match (err, resp) with
        | (some e, _) => .returned (some e)
        | (none, none) => .panicked
        | (none, some r) =>
          if r.StatusCode = 200 ∨ r.StatusCode = 201 then .returned none
          else .returned (some (.errorf ("could not create repository '" ++ repo.Name ++
            "': HTTP: " ++ toString r.StatusCode ++ ", " ++ b)))⟩ := by
  simp only [RepositoryCreate, hser, createPath_eq, hpost]
  clear hpost
  rcases err with _ | e <;> rcases resp with _ | r
  · rfl
  · by_cases h1 : r.StatusCode = 200 <;> by_cases h2 : r.StatusCode = 201 <;>
      simp [h1, h2, http.StatusOK, http.StatusCreated, createError_eq]
  · rfl
  · rfl

theorem RepositoryCreate_serializer_error {T : FormatTypes} (E : Collaborators T)
    (c : client) (repo : Repository T) (format repoType : String) (data : Reader)
    (e : GoError) (hser : E.jsonMarshalInterfaceToIOReader repo = (data, some e)) :
    RepositoryCreate E c repo format repoType = ⟨[], .returned (some e)⟩ := by
  simp only [RepositoryCreate, hser]

theorem RepositoryUpdate_serializer_error {T : FormatTypes} (E : Collaborators T)
    (c : client) (id : String) (repo : Repository T) (format repoType : String)
    (data : Reader) (e : GoError)
    (hser : E.jsonMarshalInterfaceToIOReader repo = (data, some e)) :
    RepositoryUpdate E c id repo format repoType = ⟨[], .returned (some e)⟩ := by
  simp only [RepositoryUpdate, hser]

theorem RepositoryRead_eval {T : FormatTypes} (E : Collaborators T) (c : client)
    (id : String) (b : String) (resp : Option Response) (err : Option GoError)
    (hget : c.Get "service/rest/beta/repositories" none = ⟨b, resp, err⟩) :
    RepositoryRead E c id =
      ⟨[Call.Get "service/rest/beta/repositories" none],
        match (err, resp) with
        | (some e, _) => .returned (none, some e)
        | (none, none) => .panicked
        | (none, some r) =>
          if r.StatusCode = 200 then
            match E.jsonUnmarshal b with
            | .error e => .returned (none, some (.errorf
                ("could not unmarshal repositories: " ++ e.Error)))
            | .ok repositories => .returned (scanRepositories id repositories, none)
          else .returned (none, some (.errorf ("could not read repository '" ++ id ++
            "': HTTP: " ++ toString r.StatusCode ++ ", " ++ b)))⟩ := by
  simp only [RepositoryRead, readPath_eq, hget]
  clear hget
  rcases err with _ | e <;> rcases resp with _ | r
  · rfl
  · by_cases h1 : r.StatusCode = 200
    · cases hdec : E.jsonUnmarshal b <;> simp [h1, http.StatusOK, unmarshalError_eq, hdec]
    · simp [h1, http.StatusOK, readError_eq]
  · rfl
  · rfl

theorem RepositoryUpdate_eval {T : FormatTypes} (E : Collaborators T) (c : client)
    (id : String) (repo : Repository T) (format repoType : String) (data : Reader)
    (b : String) (resp : Option Response) (err : Option GoError)
    (hser : E.jsonMarshalInterfaceToIOReader repo = (data, none))
    (hput : c.Put ("service/rest/beta/repositories/" ++ format ++ "/" ++ repoType ++ "/" ++
      id) data = ⟨b, resp, err⟩) :
    RepositoryUpdate E c id repo format repoType =
      ⟨[Call.Put ("service/rest/beta/repositories/" ++ format ++ "/" ++ repoType ++ "/" ++
          id) data],
        match (err, resp) with
        | (some e, _) => .returned (some e)
        | (none, none) => .panicked
        | (none, some r) =>
          if r.StatusCode = 200 ∨ r.StatusCode = 204 then .returned none
          else .returned (some (.errorf ("could not update repository '" ++ id ++
            "': HTTP: " ++ toString r.StatusCode ++ ", " ++ b)))⟩ := by
  simp only [RepositoryUpdate, hser, updatePath_eq, hput]
  clear hput
  rcases err with _ | e <;> rcases resp with _ | r
  · rfl
  · by_cases h1 : r.StatusCode = 200 <;> by_cases h2 : r.StatusCode = 204 <;>
      simp [h1, h2, http.StatusOK, http.StatusNoContent, updateError_eq]
  · rfl
  · rfl

theorem RepositoryDelete_eval (c : client) (id : String) (b : String)
    (resp : Option Response) (err : Option GoError)
    (hdel : c.Delete ("service/rest/beta/repositories/" ++ id) = ⟨b, resp, err⟩) :
    RepositoryDelete c id =
      ⟨[Call.Delete ("service/rest/beta/repositories/" ++ id)],
        match (err, resp) with
        | (some e, _) => .returned (some e)
        | (none, none) => .panicked
        | (none, some r) =>
          if r.StatusCode = 200 ∨ r.StatusCode = 204 then .returned none
          else .returned (some (.errorf ("could not delete repository '" ++ id ++
            "': HTTP: " ++ toString r.StatusCode ++ ", " ++ b)))⟩ := by
  simp only [RepositoryDelete, deletePath_eq, hdel]
  clear hdel
  rcases err with _ | e <;> rcases resp with _ | r
  · rfl
  · by_cases h1 : r.StatusCode = 200 <;> by_cases h2 : r.StatusCode = 204 <;>
      simp [h1, h2, http.StatusOK, http.StatusNoContent, deleteError_eq]
  · rfl
  · rfl

/-! ## The scan of `RepositoryRead` -/

theorem scanRepositories_eq_none_iff {T : FormatTypes} (id : String)
    (L : List (Repository T)) :
    scanRepositories id L = none ↔ ∀ x ∈ L, x.Name ≠ id := by
  induction L with
  | nil => simp [scanRepositories]
  | cons r rest ih =>
    by_cases h : r.Name = id <;> simp [scanRepositories, h, ih]

theorem scanRepositories_first {T : FormatTypes} (id : String)
    (pre : List (Repository T)) (r : Repository T) (post : List (Repository T))
    (hpre : ∀ x ∈ pre, x.Name ≠ id) (hr : r.Name = id) :
    scanRepositories id (pre ++ r :: post) = some r := by
  induction pre with
  | nil => simp [scanRepositories, hr]
  | cons p rest ih =>
    have hp : p.Name ≠ id := hpre p (List.mem_cons_self _ _)
    have hrest : ∀ x ∈ rest, x.Name ≠ id := fun x hx => hpre x (List.mem_cons_of_mem _ hx)
    simp [scanRepositories, hp, ih hrest]

theorem scanRepositories_some {T : FormatTypes} (id : String)
    (L : List (Repository T)) (r : Repository T) (h : scanRepositories id L = some r) :
    r.Name = id ∧ ∃ pre post, L = pre ++ r :: post ∧ ∀ x ∈ pre, x.Name ≠ id := by
  induction L with
  | nil => simp [scanRepositories] at h
  | cons p rest ih =>
    by_cases hp : p.Name = id
    · simp [scanRepositories, hp] at h
      subst h
      exact ⟨hp, [], rest, rfl, by simp⟩
    · simp [scanRepositories, hp] at h
      obtain ⟨hn, pre, post, hL, hpre⟩ := ih h
      refine ⟨hn, p :: pre, post, by simp [hL], ?_⟩
      intro x hx
      rcases List.mem_cons.mp hx with rfl | hx2
      · exact hp
      · exact hpre x hx2

/-! ## Round trip lemmas -/

theorem decodeStrings_map (cur : List String) (names : List String) :
    decodeStrings cur (names.map JSON.string) = .ok names := by
  induction names generalizing cur with
  | nil => cases cur <;> rfl
  | cons n rest ih => simp [decodeStrings, decodeString, ih]

theorem cleanup_roundtrip (cur : Option RepositoryCleanup) (x : Option RepositoryCleanup) :
    decodePointer RepositoryCleanup.setField "RepositoryCleanup" RepositoryCleanup.zero cur
      (marshalPointer RepositoryCleanup.marshal x) = .ok x := by
  cases x with
  | none => rfl
  | some c =>
    obtain ⟨names⟩ := c
    cases names with
    | none => simp [marshalPointer, RepositoryCleanup.marshal, decodePointer, decodeMembers, RepositoryCleanup.setField, decodeStringSlice]
    | some l => simp [marshalPointer, RepositoryCleanup.marshal, decodePointer, decodeMembers, RepositoryCleanup.setField, decodeStringSlice, decodeStrings_map]

theorem storage_roundtrip (cur : Option RepositoryStorage) (x : Option RepositoryStorage) :
    decodePointer RepositoryStorage.setField "RepositoryStorage" RepositoryStorage.zero cur
      (marshalPointer RepositoryStorage.marshal x) = .ok x := by
  cases x with
  | none => rfl
  | some c =>
    simp [marshalPointer, RepositoryStorage.marshal, decodePointer, decodeMembers, RepositoryStorage.setField, decodeString, decodeBool]

theorem proxy_roundtrip (cur : Option RepositoryProxy) (x : Option RepositoryProxy)
    (h : ∀ p, x = some p → isGoInt p.ContentMaxAge ∧ isGoInt p.MetadataMaxAge) :
    decodePointer RepositoryProxy.setField "RepositoryProxy" RepositoryProxy.zero cur
      (marshalPointer RepositoryProxy.marshal x) = .ok x := by
  cases x with
  | none => rfl
  | some c =>
    obtain ⟨h1, h2⟩ := h c rfl
    simp [marshalPointer, RepositoryProxy.marshal, decodePointer, decodeMembers,
      RepositoryProxy.setField, decodeString, decodeInt, h1, h2]

theorem negativeCache_roundtrip (cur : Option RepositoryNegativeCache)
    (x : Option RepositoryNegativeCache) (h : ∀ n, x = some n → isGoInt n.TTL) :
    decodePointer RepositoryNegativeCache.setField "RepositoryNegativeCache"
      RepositoryNegativeCache.zero cur
      (marshalPointer RepositoryNegativeCache.marshal x) = .ok x := by
  cases x with
  | none => rfl
  | some c =>
    have h1 := h c rfl
    simp [marshalPointer, RepositoryNegativeCache.marshal, decodePointer, decodeMembers,
      RepositoryNegativeCache.setField, decodeBool, decodeInt, h1]

theorem httpClient_roundtrip (cur : Option RepositoryHTTPClient)
    (x : Option RepositoryHTTPClient)
    (h : ∀ c, x = some c → isGoInt c.Connection.Retries ∧ isGoInt c.Connection.Timeout) :
    decodePointer RepositoryHTTPClient.setField "RepositoryHTTPClient"
      RepositoryHTTPClient.zero cur
      (marshalPointer RepositoryHTTPClient.marshal x) = .ok x := by
  cases x with
  | none => rfl
  | some c =>
    obtain ⟨h1, h2⟩ := h c rfl
    simp [marshalPointer, RepositoryHTTPClient.marshal, decodePointer, decodeMembers,
      RepositoryHTTPClient.setField, decodeBool, decodeStruct,
      RepositoryHTTPClientAuthentication.marshal, RepositoryHTTPClientAuthentication.setField,
      RepositoryHTTPClientConnection.marshal, RepositoryHTTPClientConnection.setField,
      decodeString, decodeInt, h1, h2]

theorem codec_roundtrip {S : Type} (k : FormatCodec S) (h : k.RoundTrips) (goType : String)
    (x : Option S) :
    decodePointer k.setField goType k.zero none
      (marshalPointer (fun y => .object (k.members y)) x) = .ok x := by
  cases x with
  | none => rfl
  | some c => simp [marshalPointer, decodePointer, h c]

theorem codec_present {S : Type} (k : FormatCodec S) (h : k.RoundTrips) (goType : String)
    (x : S) :
    decodePointer k.setField goType k.zero none (.object (k.members x)) = .ok (some x) := by
  simp [decodePointer, h x]

/-! ## The claims about status codes and error texts -/

/-- C1: when serialization succeeds and `Post` returns no error with a
response of status `s` and body `b`, `RepositoryCreate` returns no error
if and only if `s` is 200 or 201; for every other status it returns an
error, whatever the body is. -/
theorem RepositoryCreate_no_error_iff {T : FormatTypes} (E : Collaborators T) (c : client)
    (repo : Repository T) (format repoType : String) (data : Reader) (s : Int) (b : String)
    (hser : E.jsonMarshalInterfaceToIOReader repo = (data, none))
    (hpost : c.Post ("service/rest/beta/repositories/" ++ format ++ "/" ++ repoType) data =
      ⟨b, some ⟨s⟩, none⟩) :
    ((RepositoryCreate E c repo format repoType).result = .returned none ↔
      (s = 200 ∨ s = 201)) ∧
    (¬ (s = 200 ∨ s = 201) →
      ∃ e, (RepositoryCreate E c repo format repoType).result = .returned (some e)) := by
  rw [RepositoryCreate_eval E c repo format repoType data b _ _ hser hpost]
  by_cases h : s = 200 ∨ s = 201 <;> simp [h]

theorem RepositoryCreate_no_error_iff_witness :
    (RepositoryCreate exampleCollaborators (replyingClient ⟨"", some ⟨201⟩, none⟩)
      releases "maven2" "hosted").result = .returned none ∧
    ∃ e, (RepositoryCreate exampleCollaborators
      (replyingClient ⟨"Internal Server Error", some ⟨500⟩, none⟩)
      releases "maven2" "hosted").result = .returned (some e) :=
  ⟨(RepositoryCreate_no_error_iff exampleCollaborators
      (replyingClient ⟨"", some ⟨201⟩, none⟩) releases "maven2" "hosted" _ 201 "" rfl rfl).1.mpr
      (Or.inr rfl),
    (RepositoryCreate_no_error_iff exampleCollaborators
      (replyingClient ⟨"Internal Server Error", some ⟨500⟩, none⟩) releases "maven2" "hosted"
      _ 500 "Internal Server Error" rfl rfl).2 (by decide)⟩

/-- C8: for a response with status `s` other than 200 and 201 and body `b`,
the error `RepositoryCreate` returns is exactly
`could not create repository '<repo.Name>': HTTP: <s in decimal>, <b>`. -/
theorem RepositoryCreate_error_text {T : FormatTypes} (E : Collaborators T) (c : client)
    (repo : Repository T) (format repoType : String) (data : Reader) (s : Int) (b : String)
    (hser : E.jsonMarshalInterfaceToIOReader repo = (data, none))
    (hpost : c.Post ("service/rest/beta/repositories/" ++ format ++ "/" ++ repoType) data =
      ⟨b, some ⟨s⟩, none⟩)
    (hs : s ≠ 200 ∧ s ≠ 201) :
    (RepositoryCreate E c repo format repoType).result =
      .returned (some (.errorf ("could not create repository '" ++ repo.Name ++
        "': HTTP: " ++ toString s ++ ", " ++ b))) := by
  rw [RepositoryCreate_eval E c repo format repoType data b _ _ hser hpost]
  simp [hs.1, hs.2]

theorem RepositoryCreate_error_text_witness :
    (RepositoryCreate exampleCollaborators
      (replyingClient ⟨"Internal Server Error", some ⟨500⟩, none⟩)
      releases "maven2" "hosted").result =
      .returned (some (.errorf
        "could not create repository 'releases': HTTP: 500, Internal Server Error")) :=
  RepositoryCreate_error_text exampleCollaborators
    (replyingClient ⟨"Internal Server Error", some ⟨500⟩, none⟩) releases "maven2" "hosted"
    _ 500 "Internal Server Error" rfl rfl (by decide)

/-- C4: when serialization succeeds and `Put` returns no error with a
response of status `s` and body `b`, `RepositoryUpdate` returns no error
if and only if `s` is 200 or 204; otherwise it returns the error
`could not update repository '<id>': HTTP: <s>, <b>`, which names the `id`
argument, the status and the raw body. -/
theorem RepositoryUpdate_no_error_iff {T : FormatTypes} (E : Collaborators T) (c : client)
    (id : String) (repo : Repository T) (format repoType : String) (data : Reader)
    (s : Int) (b : String)
    (hser : E.jsonMarshalInterfaceToIOReader repo = (data, none))
    (hput : c.Put ("service/rest/beta/repositories/" ++ format ++ "/" ++ repoType ++ "/" ++
      id) data = ⟨b, some ⟨s⟩, none⟩) :
    ((RepositoryUpdate E c id repo format repoType).result = .returned none ↔
      (s = 200 ∨ s = 204)) ∧
    (¬ (s = 200 ∨ s = 204) →
      (RepositoryUpdate E c id repo format repoType).result =
        .returned (some (.errorf ("could not update repository '" ++ id ++
          "': HTTP: " ++ toString s ++ ", " ++ b)))) := by
  rw [RepositoryUpdate_eval E c id repo format repoType data b _ _ hser hput]
  by_cases h : s = 200 ∨ s = 204 <;> simp [h]

theorem RepositoryUpdate_no_error_iff_witness :
    (RepositoryUpdate exampleCollaborators (replyingClient ⟨"", some ⟨204⟩, none⟩)
      "releases" releases "maven2" "hosted").result = .returned none ∧
    (RepositoryUpdate exampleCollaborators (replyingClient ⟨"not found", some ⟨404⟩, none⟩)
      "snapshots" releases "maven2" "hosted").result =
      .returned (some (.errorf
        "could not update repository 'snapshots': HTTP: 404, not found")) :=
  ⟨(RepositoryUpdate_no_error_iff exampleCollaborators
      (replyingClient ⟨"", some ⟨204⟩, none⟩) "releases" releases "maven2" "hosted" _ 204 ""
      rfl rfl).1.mpr (Or.inr rfl),
    (RepositoryUpdate_no_error_iff exampleCollaborators
      (replyingClient ⟨"not found", some ⟨404⟩, none⟩) "snapshots" releases "maven2" "hosted"
      _ 404 "not found" rfl rfl).2 (by decide)⟩

/-- C5: when `Delete` returns no error with a response of status `s` and
body `b`, `RepositoryDelete(id)` returns no error if and only if `s` is 200
or 204; otherwise it returns the error
`could not delete repository '<id>': HTTP: <s>, <b>`. -/
theorem RepositoryDelete_no_error_iff (c : client) (id : String) (s : Int) (b : String)
    (hdel : c.Delete ("service/rest/beta/repositories/" ++ id) = ⟨b, some ⟨s⟩, none⟩) :
    ((RepositoryDelete c id).result = .returned none ↔ (s = 200 ∨ s = 204)) ∧
    (¬ (s = 200 ∨ s = 204) →
      (RepositoryDelete c id).result =
        .returned (some (.errorf ("could not delete repository '" ++ id ++
          "': HTTP: " ++ toString s ++ ", " ++ b)))) := by
  rw [RepositoryDelete_eval c id b _ _ hdel]
  by_cases h : s = 200 ∨ s = 204 <;> simp [h]

theorem RepositoryDelete_no_error_iff_witness :
    (RepositoryDelete (replyingClient ⟨"", some ⟨200⟩, none⟩) "releases").result =
      .returned none ∧
    (RepositoryDelete (replyingClient ⟨"forbidden", some ⟨403⟩, none⟩) "releases").result =
      .returned (some (.errorf
        "could not delete repository 'releases': HTTP: 403, forbidden")) :=
  ⟨(RepositoryDelete_no_error_iff (replyingClient ⟨"", some ⟨200⟩, none⟩) "releases" 200 ""
      rfl).1.mpr (Or.inl rfl),
    (RepositoryDelete_no_error_iff (replyingClient ⟨"forbidden", some ⟨403⟩, none⟩)
      "releases" 403 "forbidden" rfl).2 (by decide)⟩

/-! ## The requests made -/

/-- C6: for every input, each operation makes exactly one transport call,
whatever the transport replies, with the format, repoType and id strings
inserted verbatim: `RepositoryCreate` calls `Post` on
`service/rest/beta/repositories/<format>/<repoType>` with the serialized
repo as body (the path comes from the arguments, not from `repo.Format` and
`repo.Type_`), `RepositoryRead` calls `Get` on
`service/rest/beta/repositories` with a nil second argument for every id,
`RepositoryUpdate` calls `Put` on
`service/rest/beta/repositories/<format>/<repoType>/<id>` with the
serialized repo as body, and `RepositoryDelete` calls `Delete` on
`service/rest/beta/repositories/<id>`. The serializer is
`jsonMarshalInterfaceToIOReader` by the struct tags; the last part says the
same of any serializer on a repo for which it returns a reader `data` and
no error. -/
theorem request_shape {T : FormatTypes} (K : FormatCodecs T)
    (jsonUnmarshal : String → Except GoError (List (Repository T))) (c : client)
    (id : String) (repo : Repository T) (format repoType : String) :
    (RepositoryCreate (marshalingCollaborators K jsonUnmarshal) c repo format repoType).calls =
      [Call.Post ("service/rest/beta/repositories/" ++ format ++ "/" ++ repoType)
        (some (repo.marshal K))] ∧
    (RepositoryRead (marshalingCollaborators K jsonUnmarshal) c id).calls =
      [Call.Get "service/rest/beta/repositories" none] ∧
    (RepositoryUpdate (marshalingCollaborators K jsonUnmarshal) c id repo format
      repoType).calls =
      [Call.Put ("service/rest/beta/repositories/" ++ format ++ "/" ++ repoType ++ "/" ++ id)
        (some (repo.marshal K))] ∧
    (RepositoryDelete c id).calls = [Call.Delete ("service/rest/beta/repositories/" ++ id)] ∧
    (∀ (E : Collaborators T) (data : Reader),
      E.jsonMarshalInterfaceToIOReader repo = (data, none) →
      (RepositoryCreate E c repo format repoType).calls =
        [Call.Post ("service/rest/beta/repositories/" ++ format ++ "/" ++ repoType) data] ∧
      (RepositoryRead E c id).calls = [Call.Get "service/rest/beta/repositories" none] ∧
      (RepositoryUpdate E c id repo format repoType).calls =
        [Call.Put ("service/rest/beta/repositories/" ++ format ++ "/" ++ repoType ++ "/" ++
          id) data]) := by
  have general : ∀ (E : Collaborators T) (data : Reader),
      E.jsonMarshalInterfaceToIOReader repo = (data, none) →
      (RepositoryCreate E c repo format repoType).calls =
        [Call.Post ("service/rest/beta/repositories/" ++ format ++ "/" ++ repoType) data] ∧
      (RepositoryRead E c id).calls = [Call.Get "service/rest/beta/repositories" none] ∧
      (RepositoryUpdate E c id repo format repoType).calls =
        [Call.Put ("service/rest/beta/repositories/" ++ format ++ "/" ++ repoType ++ "/" ++
          id) data] := by
    intro E data hser
    refine ⟨?_, ?_, ?_⟩
    · rw [RepositoryCreate_eval E c repo format repoType data _ _ _ hser rfl]
    · rw [RepositoryRead_eval E c id _ _ _ rfl]
    · rw [RepositoryUpdate_eval E c id repo format repoType data _ _ _ hser rfl]
  obtain ⟨h1, h2, h3⟩ := general (marshalingCollaborators K jsonUnmarshal)
    (some (repo.marshal K)) rfl
  refine ⟨h1, h2, h3, ?_, general⟩
  rw [RepositoryDelete_eval c id _ _ _ rfl]

theorem request_shape_witness :
    (RepositoryCreate exampleCollaborators (replyingClient ⟨"", some ⟨500⟩, none⟩)
      releases "maven2" "hosted").calls =
      [Call.Post "service/rest/beta/repositories/maven2/hosted"
        (some (releases.marshal presenceOnlyCodecs))] ∧
    (RepositoryRead exampleCollaborators (replyingClient ⟨"", some ⟨500⟩, none⟩)
      "my-repo").calls = [Call.Get "service/rest/beta/repositories" none] ∧
    (RepositoryUpdate exampleCollaborators (replyingClient ⟨"", some ⟨500⟩, none⟩)
      "my-repo" releases "maven2" "hosted").calls =
      [Call.Put "service/rest/beta/repositories/maven2/hosted/my-repo"
        (some (releases.marshal presenceOnlyCodecs))] ∧
    (RepositoryDelete (replyingClient ⟨"", some ⟨500⟩, none⟩) "my-repo").calls =
      [Call.Delete "service/rest/beta/repositories/my-repo"] ∧
    (RepositoryCreate exampleCollaborators
      (replyingClient ⟨"", none, some (.collaborator "connection reset")⟩)
      myRepo "docker" "proxy").calls =
      [Call.Post "service/rest/beta/repositories/docker/proxy"
        (some (myRepo.marshal presenceOnlyCodecs))] :=
  have h := request_shape presenceOnlyCodecs exampleCollaborators.jsonUnmarshal
    (replyingClient ⟨"", some ⟨500⟩, none⟩) "my-repo" releases "maven2" "hosted"
  ⟨h.1, h.2.1, h.2.2.1, h.2.2.2.1,
    ((request_shape presenceOnlyCodecs exampleCollaborators.jsonUnmarshal
      (replyingClient ⟨"", none, some (.collaborator "connection reset")⟩) "my-repo" myRepo
      "docker" "proxy").2.2.2.2 exampleCollaborators _ rfl).1⟩

/-- C9: whenever the transport call returns an error `e`, each of the four
operations returns exactly `e` (and `RepositoryRead` no entry), whatever
body and response come with it: a response with a success status does not
turn it into success, and a nil response is not dereferenced. -/
theorem transport_error_returned {T : FormatTypes} (E : Collaborators T) (c : client)
    (id : String) (repo : Repository T) (format repoType : String) (data : Reader)
    (b : String) (resp : Option Response) (e : GoError) :
    (E.jsonMarshalInterfaceToIOReader repo = (data, none) →
      c.Post ("service/rest/beta/repositories/" ++ format ++ "/" ++ repoType) data =
        ⟨b, resp, some e⟩ →
      (RepositoryCreate E c repo format repoType).result = .returned (some e)) ∧
    (c.Get "service/rest/beta/repositories" none = ⟨b, resp, some e⟩ →
      (RepositoryRead E c id).result = .returned (none, some e)) ∧
    (E.jsonMarshalInterfaceToIOReader repo = (data, none) →
      c.Put ("service/rest/beta/repositories/" ++ format ++ "/" ++ repoType ++ "/" ++ id)
        data = ⟨b, resp, some e⟩ →
      (RepositoryUpdate E c id repo format repoType).result = .returned (some e)) ∧
    (c.Delete ("service/rest/beta/repositories/" ++ id) = ⟨b, resp, some e⟩ →
      (RepositoryDelete c id).result = .returned (some e)) := by
  refine ⟨?_, ?_, ?_, ?_⟩
  · intro hser h
    rw [RepositoryCreate_eval E c repo format repoType data b _ _ hser h]
  · intro h
    rw [RepositoryRead_eval E c id b _ _ h]
  · intro hser h
    rw [RepositoryUpdate_eval E c id repo format repoType data b _ _ hser h]
  · intro h
    rw [RepositoryDelete_eval c id b _ _ h]

theorem transport_error_returned_witness :
    (RepositoryCreate exampleCollaborators
      (replyingClient ⟨"", some ⟨201⟩, some (.collaborator "connection reset")⟩)
      releases "maven2" "hosted").result =
      .returned (some (.collaborator "connection reset")) ∧
    (RepositoryRead exampleCollaborators
      (replyingClient ⟨"", none, some (.collaborator "connection reset")⟩)
      "my-repo").result = .returned (none, some (.collaborator "connection reset")) ∧
    (RepositoryUpdate exampleCollaborators
      (replyingClient ⟨"", none, some (.collaborator "connection reset")⟩)
      "my-repo" releases "maven2" "hosted").result =
      .returned (some (.collaborator "connection reset")) ∧
    (RepositoryDelete
      (replyingClient ⟨"", some ⟨200⟩, some (.collaborator "connection reset")⟩)
      "my-repo").result = .returned (some (.collaborator "connection reset")) :=
  ⟨(transport_error_returned exampleCollaborators
      (replyingClient ⟨"", some ⟨201⟩, some (.collaborator "connection reset")⟩)
      "my-repo" releases "maven2" "hosted" _ "" (some ⟨201⟩)
      (.collaborator "connection reset")).1 rfl rfl,
    (transport_error_returned exampleCollaborators
      (replyingClient ⟨"", none, some (.collaborator "connection reset")⟩)
      "my-repo" releases "maven2" "hosted" none "" none
      (.collaborator "connection reset")).2.1 rfl,
    (transport_error_returned exampleCollaborators
      (replyingClient ⟨"", none, some (.collaborator "connection reset")⟩)
      "my-repo" releases "maven2" "hosted" _ "" none
      (.collaborator "connection reset")).2.2.1 rfl rfl,
    (transport_error_returned exampleCollaborators
      (replyingClient ⟨"", some ⟨200⟩, some (.collaborator "connection reset")⟩)
      "my-repo" releases "maven2" "hosted" none "" (some ⟨200⟩)
      (.collaborator "connection reset")).2.2.2 rfl⟩

/-! ## `RepositoryRead` -/

/-- C2: when `Get` returns no error, status 200 and a body that decodes to
the sequence `L`, `RepositoryRead(id)` returns no error; it returns the
first entry of `L` whose `Name` equals `id`, as that list element, and it
returns (no entry, no error) exactly when no entry of `L` has `Name` equal
to `id`. -/
theorem RepositoryRead_first_match {T : FormatTypes} (E : Collaborators T) (c : client)
    (id : String) (b : String) (L : List (Repository T))
    (hget : c.Get "service/rest/beta/repositories" none = ⟨b, some ⟨200⟩, none⟩)
    (hdec : E.jsonUnmarshal b = .ok L) :
    (∃ found, (RepositoryRead E c id).result = .returned (found, none)) ∧
    (∀ pre r post, L = pre ++ r :: post → (∀ x ∈ pre, x.Name ≠ id) → r.Name = id →
      (RepositoryRead E c id).result = .returned (some r, none)) ∧
    (∀ r, (RepositoryRead E c id).result = .returned (some r, none) →
      r.Name = id ∧ ∃ pre post, L = pre ++ r :: post ∧ ∀ x ∈ pre, x.Name ≠ id) ∧
    ((RepositoryRead E c id).result = .returned (none, none) ↔ ∀ x ∈ L, x.Name ≠ id) := by
  rw [RepositoryRead_eval E c id b _ _ hget]
  simp only [hdec, if_true]
  refine ⟨⟨_, rfl⟩, ?_, ?_, ?_⟩
  · intro pre r post hL hpre hr
    rw [hL, scanRepositories_first id pre r post hpre hr]
  · intro r h
    have h2 : scanRepositories id L = some r := by
      injection h with h3
      exact congrArg Prod.fst h3
    exact scanRepositories_some id L r h2
  · rw [← scanRepositories_eq_none_iff]
    constructor
    · intro h
      injection h with h3
      exact congrArg Prod.fst h3
    · intro h
      rw [h]

theorem RepositoryRead_first_match_witness :
    (RepositoryRead exampleCollaborators (replyingClient ⟨listingBody, some ⟨200⟩, none⟩)
      "my-repo").result = .returned (some (entry "my-repo" true), none) ∧
    (RepositoryRead exampleCollaborators (replyingClient ⟨listingBody, some ⟨200⟩, none⟩)
      "snapshots").result = .returned (none, none) :=
  ⟨(RepositoryRead_first_match exampleCollaborators
      (replyingClient ⟨listingBody, some ⟨200⟩, none⟩) "my-repo" listingBody
      [entry "releases" true, entry "my-repo" true, entry "my-repo" false] rfl
      rfl).2.1 [entry "releases" true] (entry "my-repo" true) [entry "my-repo" false]
      rfl (by simp [entry]) rfl,
    (RepositoryRead_first_match exampleCollaborators
      (replyingClient ⟨listingBody, some ⟨200⟩, none⟩) "snapshots" listingBody
      [entry "releases" true, entry "my-repo" true, entry "my-repo" false] rfl
      rfl).2.2.2.mpr (by simp [entry])⟩

/-- C3: when `Get` returns no error with status `s` and body `b`,
`RepositoryRead(id)` returns an error, and then no entry, if and only if
`s` is not 200 or `b` cannot be decoded; the status is checked first, so
for `s` other than 200 the error is
`could not read repository '<id>': HTTP: <s>, <b>` whatever `b` decodes to,
and the error `could not unmarshal repositories: ...` is returned only when
`s` is 200. -/
theorem RepositoryRead_error_iff {T : FormatTypes} (E : Collaborators T) (c : client)
    (id : String) (s : Int) (b : String)
    (hget : c.Get "service/rest/beta/repositories" none = ⟨b, some ⟨s⟩, none⟩) :
    ((∃ e, (RepositoryRead E c id).result = .returned (none, some e)) ↔
      (s ≠ 200 ∨ ∃ e, E.jsonUnmarshal b = .error e)) ∧
    (∀ found e, (RepositoryRead E c id).result = .returned (found, some e) → found = none) ∧
    (s ≠ 200 → (RepositoryRead E c id).result =
      .returned (none, some (.errorf ("could not read repository '" ++ id ++
        "': HTTP: " ++ toString s ++ ", " ++ b)))) ∧
    (∀ e, s = 200 → E.jsonUnmarshal b = .error e →
      (RepositoryRead E c id).result =
        .returned (none, some (.errorf ("could not unmarshal repositories: " ++ e.Error)))) ∧
    (∀ text, (RepositoryRead E c id).result =
        .returned (none, some (.errorf ("could not unmarshal repositories: " ++ text))) →
      s = 200) := by
  rw [RepositoryRead_eval E c id b _ _ hget]
  by_cases hs : s = 200
  · subst hs
    cases hdec : E.jsonUnmarshal b with
    | error e => simp
    | ok L => simp
  · have hne : ∀ text, ¬ ("could not read repository '" ++ id ++ "': HTTP: " ++ toString s ++
        ", " ++ b = "could not unmarshal repositories: " ++ text) := by
      intro text h
      apply readError_ne_unmarshalError (id ++ "': HTTP: " ++ toString s ++ ", " ++ b) text
      simpa [String.append_assoc] using h
    simp [hs, hne]

theorem RepositoryRead_error_iff_witness :
    (RepositoryRead exampleCollaborators (replyingClient ⟨listingBody, some ⟨503⟩, none⟩)
      "my-repo").result = .returned (none, some (.errorf
        ("could not read repository 'my-repo': HTTP: 503, " ++ listingBody))) ∧
    (RepositoryRead exampleCollaborators (replyingClient ⟨"[\x7b", some ⟨200⟩, none⟩)
      "my-repo").result = .returned (none, some (.errorf
        "could not unmarshal repositories: unexpected end of JSON input")) :=
  ⟨(RepositoryRead_error_iff exampleCollaborators
      (replyingClient ⟨listingBody, some ⟨503⟩, none⟩) "my-repo" 503 listingBody rfl).2.2.1
      (by decide),
    (RepositoryRead_error_iff exampleCollaborators
      (replyingClient ⟨"[\x7b", some ⟨200⟩, none⟩) "my-repo" 200 "[\x7b" rfl).2.2.2.1
      (.collaborator "unexpected end of JSON input") rfl rfl⟩

/-! ## Presence of the sub-configurations -/

/-- C10, as stated, fails: the repository `releases` of the end-to-end
scenario has `Storage` present and `Cleanup` absent, and `RepositoryCreate`
serializes it, sends it and returns no error on status 201. -/
theorem subconfigurations_not_tied :
    (RepositoryCreate exampleCollaborators (replyingClient ⟨"", some ⟨201⟩, none⟩)
      releases "maven2" "hosted").calls =
      [Call.Post "service/rest/beta/repositories/maven2/hosted"
        (some (releases.marshal presenceOnlyCodecs))] ∧
    (RepositoryCreate exampleCollaborators (replyingClient ⟨"", some ⟨201⟩, none⟩)
      releases "maven2" "hosted").result = .returned none ∧
    ¬ (releases.allPresent ∨ releases.allAbsent) := by
  have h := RepositoryCreate_eval exampleCollaborators
    (replyingClient ⟨"", some ⟨201⟩, none⟩) releases "maven2" "hosted" _ "" (some ⟨201⟩) none
    rfl rfl
  refine ⟨?_, ?_, ?_⟩
  · rw [h]
    rfl
  · rw [h]
    rfl
  · simp [Repository.allPresent, Repository.allAbsent, releases]

/-- C10, amended: `RepositoryCreate` puts no condition on which
sub-configurations are present. For every repository, whichever of its
sub-configurations are present or absent, when serialization succeeds and
`Post` returns no error with status 201, `RepositoryCreate` sends the
serialized repository in one `Post` and returns no error. -/
theorem RepositoryCreate_accepts_any_presence {T : FormatTypes} (E : Collaborators T)
    (c : client) (repo : Repository T) (format repoType : String) (data : Reader)
    (b : String)
    (hser : E.jsonMarshalInterfaceToIOReader repo = (data, none))
    (hpost : c.Post ("service/rest/beta/repositories/" ++ format ++ "/" ++ repoType) data =
      ⟨b, some ⟨201⟩, none⟩) :
    (RepositoryCreate E c repo format repoType).calls =
      [Call.Post ("service/rest/beta/repositories/" ++ format ++ "/" ++ repoType) data] ∧
    (RepositoryCreate E c repo format repoType).result = .returned none := by
  rw [RepositoryCreate_eval E c repo format repoType data b _ _ hser hpost]
  simp

theorem RepositoryCreate_accepts_any_presence_witness :
    (RepositoryCreate exampleCollaborators (replyingClient ⟨"", some ⟨201⟩, none⟩)
      myRepo "" "").calls =
      [Call.Post "service/rest/beta/repositories//"
        (some (myRepo.marshal presenceOnlyCodecs))] ∧
    (RepositoryCreate exampleCollaborators (replyingClient ⟨"", some ⟨201⟩, none⟩)
      myRepo "" "").result = .returned none :=
  RepositoryCreate_accepts_any_presence exampleCollaborators
    (replyingClient ⟨"", some ⟨201⟩, none⟩) myRepo "" "" _ "" rfl rfl

/-! ## JSON round trip -/

theorem presenceOnlyCodec_roundTrips : presenceOnlyCodec.RoundTrips := by
  intro x
  rfl

theorem marshal_keys_format {T : FormatTypes} (K : FormatCodecs T) (r : Repository T)
    (h : r.Format = "") : "format" ∉ (Repository.marshal K r).keys := by
  obtain ⟨format, name, online, type_, apt, aptSigning, cleanup, bower, docker, dockerProxy,
    httpClient, negativeCache, proxy, storage⟩ := r
  simp only at h
  by_cases ht : type_ = "" <;> cases apt <;> cases aptSigning <;>
    simp [Repository.marshal, JSON.keys, omitEmptyString, omitEmptyPointer, h, ht]

theorem marshal_keys_type {T : FormatTypes} (K : FormatCodecs T) (r : Repository T)
    (h : r.Type_ = "") : "type" ∉ (Repository.marshal K r).keys := by
  obtain ⟨format, name, online, type_, apt, aptSigning, cleanup, bower, docker, dockerProxy,
    httpClient, negativeCache, proxy, storage⟩ := r
  simp only at h
  by_cases hf : format = "" <;> cases apt <;> cases aptSigning <;>
    simp [Repository.marshal, JSON.keys, omitEmptyString, omitEmptyPointer, h, hf]

/-- C7: for every `Repository` value `r` whose `int` fields hold values of
Go's `int` (the format specific structs being any types whose own JSON
codec reads back what it writes), marshalling `r` by the struct's field
tags and unmarshalling the document into a zero `Repository` succeeds and
yields `r` itself: every field is preserved, an empty `Format` or `Type`
is omitted from the document and reads back as empty, an absent
sub-configuration reads back as absent, and `Cleanup.PolicyNames` comes
back in the same order. -/
theorem Repository_json_round_trip {T : FormatTypes} (K : FormatCodecs T)
    (hApt : K.Apt.RoundTrips) (hAptSigning : K.AptSigning.RoundTrips)
    (hBower : K.Bower.RoundTrips) (hDocker : K.Docker.RoundTrips)
    (hDockerProxy : K.DockerProxy.RoundTrips)
    (r : Repository T) (hr : r.IntsInRange) :
    Repository.unmarshal K (Repository.marshal K r) = .ok r ∧
    (r.Format = "" → "format" ∉ (Repository.marshal K r).keys) ∧
    (r.Type_ = "" → "type" ∉ (Repository.marshal K r).keys) := by
  refine ⟨?_, marshal_keys_format K r, marshal_keys_type K r⟩
  obtain ⟨hp, hn, hh⟩ := hr
  obtain ⟨format, name, online, type_, apt, aptSigning, cleanup, bower, docker, dockerProxy,
    httpClient, negativeCache, proxy, storage⟩ := r
  simp only at hp hn hh
  by_cases hf : format = "" <;> by_cases ht : type_ = "" <;> cases apt <;> cases aptSigning <;>
    simp [Repository.unmarshal, Repository.marshal, decodeStruct, omitEmptyString,
      omitEmptyPointer, decodeMembers, Repository.setField, Repository.zero, decodeString,
      decodeBool, hf, ht, cleanup_roundtrip, storage_roundtrip, proxy_roundtrip _ _ hp,
      negativeCache_roundtrip _ _ hn, httpClient_roundtrip _ _ hh,
      codec_roundtrip _ hBower, codec_roundtrip _ hDocker, codec_roundtrip _ hDockerProxy,
      codec_present _ hApt, codec_present _ hAptSigning]

theorem myRepo_intsInRange : myRepo.IntsInRange := by
  refine ⟨?_, ?_, ?_⟩
  · intro p hp
    cases hp
    decide
  · intro n hn
    cases hn
    decide
  · intro h hh
    cases hh
    decide

theorem Repository_json_round_trip_witness :
    Repository.unmarshal presenceOnlyCodecs (Repository.marshal presenceOnlyCodecs myRepo) =
      .ok myRepo ∧
    "format" ∉ (Repository.marshal presenceOnlyCodecs myRepo).keys ∧
    "type" ∉ (Repository.marshal presenceOnlyCodecs myRepo).keys :=
  have h := Repository_json_round_trip presenceOnlyCodecs presenceOnlyCodec_roundTrips
    presenceOnlyCodec_roundTrips presenceOnlyCodec_roundTrips presenceOnlyCodec_roundTrips
    presenceOnlyCodec_roundTrips myRepo myRepo_intsInRange
  ⟨h.1, h.2.1 rfl, h.2.2 rfl⟩

/-! ## The end-to-end scenario of the specification -/

theorem releases_document :
    releases.marshal presenceOnlyCodecs =
      .object [("format", .string "maven2"), ("name", .string "releases"),
        ("online", .bool true), ("type", .string "hosted"), ("cleanup", .null),
        ("bower", .null), ("docker", .null), ("dockerProxy", .null), ("httpClient", .null),
        ("negativeCache", .null), ("proxy", .null),
        ("storage", .object [("blobStoreName", .string "default"),
          ("strictContentTypeValidation", .bool true),
          ("writePolicy", .string "allow_once")])] := by
  rfl

theorem releases_created :
    RepositoryCreate exampleCollaborators (replyingClient ⟨"", some ⟨201⟩, none⟩)
      releases "maven2" "hosted" =
      ⟨[Call.Post "service/rest/beta/repositories/maven2/hosted"
        (some (releases.marshal presenceOnlyCodecs))], .returned none⟩ := by
  rfl

theorem Sprintf_operand_verbatim :
    Sprintf "%s/%s" [.str repositoryAPIEndpoint, .str "a%sb/../c"] =
      "service/rest/beta/repositories/a%sb/../c" := by
  decide

theorem unmarshal_rejects_number_name :
    Repository.unmarshal presenceOnlyCodecs (.object [("name", .number 7)]) =
      .error (unmarshalTypeError "string") := by
  rfl

theorem unmarshal_skips_foreign_member :
    Repository.unmarshal presenceOnlyCodecs
      (.object [("url", .string "http://nexus/repository/x"), ("name", .string "x"),
        ("online", .bool true)]) = .ok (entry "x" true) := by
  rfl

end Nexus
